import Mathlib

/-!
# Resume Signal Extraction & Scoring Pipeline - verification development

Shallow embedding of the scoring pipeline of the `resume_vetter` repository
(`cv_vetter.py`, `cv_vetter2.py`, `test.py`) and proofs about it.

Python strings are modelled as Lean `String` / `List Char` over their ASCII
fragment (the resume heuristics in the source only ever test ASCII classes).
Python `float` arithmetic is idealised as exact rationals (`ℚ`); `round(x, 1)`
is modelled with round-half-to-even at one decimal, which agrees with Python
on every value computed here (none is a tie).  `datetime` values are modelled
as calendar dates (the time-of-day component never changes any comparison or
`.days` difference used by the source at the inputs analysed).
-/

/-! ## ASCII character helpers -/

/-- Upper-case ASCII letter, the class `[A-Z]`. -/
def isUpperAZ (c : Char) : Bool := 65 ≤ c.toNat && c.toNat ≤ 90

/-- Lower-case ASCII letter, the class `[a-z]`. -/
def isLowerAZ (c : Char) : Bool := 97 ≤ c.toNat && c.toNat ≤ 122

/-- ASCII digit, the class `[0-9]`. -/
def isDigit09 (c : Char) : Bool := 48 ≤ c.toNat && c.toNat ≤ 57

/-- Python's `\s` class (ASCII fragment): space, tab, newline, CR, VT, FF. -/
def isPySpace (c : Char) : Bool :=
  c.toNat == 32 || c.toNat == 9 || c.toNat == 10 || c.toNat == 13 ||
  c.toNat == 11 || c.toNat == 12

/-- Python's `\w` class (ASCII fragment): letters, digits, underscore. -/
def isWordChar (c : Char) : Bool :=
  isUpperAZ c || isLowerAZ c || isDigit09 c || c.toNat == 95

/-- ASCII letter. -/
def isAlphaAZ (c : Char) : Bool := isUpperAZ c || isLowerAZ c

/-- ASCII lower-casing of one character (what `str.lower` does on ASCII). -/
def toLowerC (c : Char) : Char :=
  if isUpperAZ c then Char.ofNat (c.toNat + 32) else c

/-- ASCII upper-casing of one character (what `str.upper` does on ASCII). -/
def toUpperC (c : Char) : Char :=
  if isLowerAZ c then Char.ofNat (c.toNat - 32) else c

/-- `str.lower` on an ASCII string. -/
def pyLower (s : String) : String := String.mk (s.toList.map toLowerC)

/-! ## Python string helpers -/

/-- `needle` is a prefix of `hay` (character-exact). -/
def isPrefixList : List Char → List Char → Bool
  | [], _ => true
  | _ :: _, [] => false
  | a :: as, b :: bs => a == b && isPrefixList as bs

/-- Case-insensitive (ASCII) prefix test. -/
def ciPrefixList : List Char → List Char → Bool
  | [], _ => true
  | _ :: _, [] => false
  | a :: as, b :: bs => toLowerC a == toLowerC b && ciPrefixList as bs

/-- Python's substring containment `needle in hay` (the empty needle is
contained in everything). -/
def containsList (needle : List Char) : List Char → Bool
  | [] => isPrefixList needle []
  | c :: rest => isPrefixList needle (c :: rest) || containsList needle rest

/-- `needle in hay` on strings, Python's `in` for `str`. -/
def pyContains (needle hay : String) : Bool := containsList needle.toList hay.toList

/-- `str.strip()`: drop leading and trailing whitespace. -/
def pyStripList (l : List Char) : List Char :=
  ((l.dropWhile isPySpace).reverse.dropWhile isPySpace).reverse

/-- The length of `str.split()`: number of maximal whitespace-free runs.
The flag records whether the previous character belonged to a word. -/
def splitCountAux : Bool → List Char → Nat
  | _, [] => 0
  | inWord, c :: rest =>
    if isPySpace c then splitCountAux false rest
    else (if inWord then 0 else 1) + splitCountAux true rest

/-- `len(s.split())` for a Python string. -/
def pySplitCount (l : List Char) : Nat := splitCountAux false l

/-- `str.title()` (ASCII fragment): a letter after a non-letter is upper-cased,
a letter after a letter is lower-cased. The flag records whether the previous
character was a letter. -/
def pyTitleAux : Bool → List Char → List Char
  | _, [] => []
  | prevAlpha, c :: rest =>
    if isAlphaAZ c then
      (if prevAlpha then toLowerC c else toUpperC c) :: pyTitleAux true rest
    else c :: pyTitleAux false rest

/-- `str.title()` on a character list. -/
def pyTitleList (l : List Char) : List Char := pyTitleAux false l

/-- `str.capitalize()`: first character upper-cased, the rest lower-cased. -/
def pyCapitalize (s : String) : String :=
  match s.toList with
  | [] => ""
  | c :: rest => String.mk (toUpperC c :: rest.map toLowerC)

/-- `text.split('\n')` as a list of character lists (keeps empty pieces). -/
def splitNl : List Char → List (List Char)
  | [] => [[]]
  | c :: rest =>
    let tail := splitNl rest
    if c == '\n' then [] :: tail
    else match tail with
      | [] => [[c]]
      | h :: t => (c :: h) :: t

/-! ## Calendar dates

`datetime` values are modelled as proleptic-Gregorian calendar dates. -/

/-- A calendar date; `month` is 1-12 and `day` 1-31 on every value built
here. -/
structure Date where
  year : Nat
  month : Nat
  day : Nat
deriving DecidableEq, Repr

/-- Gregorian leap-year test. -/
def isLeap (y : Nat) : Bool := (y % 4 == 0 && y % 100 != 0) || y % 400 == 0

/-- Days in the months strictly before month `m` of a non-leap year
(index 1-12; out-of-range months give 0, never reached on dates built here). -/
def cumMonthDays (m : Nat) : Nat :=
  [0, 0, 31, 59, 90, 120, 151, 181, 212, 243, 273, 304, 334].getD m 0

/-- Python's `date.toordinal`: day number with 0001-01-01 as day 1. -/
def toOrdinal (d : Date) : Nat :=
  365 * (d.year - 1) + (d.year - 1) / 4 - (d.year - 1) / 100 + (d.year - 1) / 400
    + cumMonthDays d.month + (if isLeap d.year && d.month > 2 then 1 else 0) + d.day

/-- `(e - s).days` for two datetimes at the same time of day. -/
def dayDiff (e s : Date) : Int := (toOrdinal e : Int) - (toOrdinal s : Int)

/-- `dateutil.relativedelta(e, s)` restricted to its `(years, months)` output
for `s ≤ e`: component-wise difference with borrowing.  (The library clamps a
month-end overshoot through the calendar; no date analysed here has distinct
day components inside one pair, so the plain borrow is exact for them.) -/
def relativedeltaYM (e s : Date) : Int × Int :=
  let dd : Int := (e.day : Int) - (s.day : Int)
  let dm0 : Int := (e.month : Int) - (s.month : Int) + (if dd < 0 then -1 else 0)
  let dy : Int := (e.year : Int) - (s.year : Int) + (if dm0 < 0 then -1 else 0)
  (dy, if dm0 < 0 then dm0 + 12 else dm0)

/-! ## Python rounding -/

/-- Floor of a rational as an integer. -/
def ratFloor (q : ℚ) : Int := ⌊q⌋

/-- Round-half-to-even to an integer, Python's `round` convention. -/
def roundHalfEven (q : ℚ) : Int :=
  let f := ratFloor q
  let r := q - (f : ℚ)
  if r < 1 / 2 then f else if 1 / 2 < r then f + 1
  else if f % 2 = 0 then f else f + 1

/-- Python's `round(x, 1)`. -/
def pyRound1 (q : ℚ) : ℚ := (roundHalfEven (10 * q) : ℚ) / 10

/-! ## The external fuzzy date resolver

`dateparser.parse` is a third-party collaborator (spec section 6: "given a
token string and a reference now instant, returns a resolved calendar date or
a null/failure indicator").  The calculators below take the resolver as a
parameter; `modelResolve` is the concrete model used at concrete inputs. -/

/-- Month number of a 3-letter month abbreviation, case-insensitively. -/
def monthIndex (s : String) : Option Nat :=
  match pyLower s with
  | "jan" => some 1 | "feb" => some 2 | "mar" => some 3 | "apr" => some 4
  | "may" => some 5 | "jun" => some 6 | "jul" => some 7 | "aug" => some 8
  | "sep" => some 9 | "oct" => some 10 | "nov" => some 11 | "dec" => some 12
  | _ => none

/-- The numeric value of a list of ASCII digits, if it is four digits long. -/
def fourDigitYear (l : List Char) : Option Nat :=
  match l with
  | [a, b, c, d] =>
    if isDigit09 a && isDigit09 b && isDigit09 c && isDigit09 d then
      some ((a.toNat - 48) * 1000 + (b.toNat - 48) * 100 + (c.toNat - 48) * 10
        + (d.toNat - 48))
    else none
  | _ => none

/-- Model of the external `dateparser.parse` collaborator on the token shapes
the tokenizers emit, with the current date as the relative base: a month
abbreviation resolves to that month of the current year keeping the current
day, a bare 4-digit year resolves to that year keeping the current month and
day (the library's default settings fill missing components from the base);
every other string - in particular `"Present"` - fails to parse. -/
def modelResolve (now : Date) (s : String) : Option Date :=
  match monthIndex s with
  | some m => some ⟨now.year, m, now.day⟩
  | none =>
    match fourDigitYear s.toList with
    | some y => some ⟨y, now.month, now.day⟩
    | none => none

/-! ## The date-range tokenizers

`re.findall` for the two date regexes, scanning left to right and emitting
non-overlapping leftmost matches.  The scanners carry, at each position,
whether the previous character was a word character (for `\b`). -/

/-- The twelve month abbreviations of the regexes, as character lists. -/
def monthAbbrevs : List (List Char) :=
  ["Jan", "Feb", "Mar", "Apr", "May", "Jun", "Jul", "Aug", "Sep", "Oct",
   "Nov", "Dec"].map String.toList

/-- `\b` holds after the match if the next character is not a word character
(or the input ended). -/
def boundaryAfter : List Char → Bool
  | [] => true
  | c :: _ => !isWordChar c

/-- Match one month abbreviation at the head, with the closing `\b`;
case-sensitive when `ci` is false (cv_vetter's regex has no `re.IGNORECASE`,
test.py's has it). -/
def matchMonth (ci : Bool) (l : List Char) : Option Nat :=
  if monthAbbrevs.any (fun m =>
      (if ci then ciPrefixList m l else isPrefixList m l) &&
        boundaryAfter (l.drop 3)) then
    some 3
  else none

/-- Match `\d{4}\b` at the head. -/
def matchYear4 (l : List Char) : Option Nat :=
  match l with
  | a :: b :: c :: d :: rest =>
    if isDigit09 a && isDigit09 b && isDigit09 c && isDigit09 d &&
        boundaryAfter rest then some 4 else none
  | _ => none

/-- Match `\d{1,2}/\d{4}\b` at the head (two digits preferred, as the
regex engine backtracks). -/
def matchMMYYYY (l : List Char) : Option Nat :=
  match l with
  | a :: b :: c :: d :: e :: f :: g :: rest =>
    if isDigit09 a && isDigit09 b && c == '/' && isDigit09 d && isDigit09 e &&
        isDigit09 f && isDigit09 g && boundaryAfter rest then some 7
    else if isDigit09 a && b == '/' && isDigit09 c && isDigit09 d &&
        isDigit09 e && isDigit09 f && boundaryAfter (g :: rest) then some 6
    else none
  | a :: b :: c :: d :: e :: f :: rest =>
    if isDigit09 a && b == '/' && isDigit09 c && isDigit09 d && isDigit09 e &&
        isDigit09 f && boundaryAfter rest then some 6
    else none
  | _ => none

/-- One attempted match of cv_vetter's pattern
`\b(?:Jan|...|Dec|\d{4})\b` at the current position. -/
def matchDateV1 (prevWord : Bool) (l : List Char) : Option Nat :=
  if prevWord then none
  else match matchMonth false l with
    | some k => some k
    | none => matchYear4 l

/-- One attempted match of test.py's pattern
`(\b(?:Jan|...|Dec|\d{1,2}/\d{4}|\d{4})\b|Present)` with `re.IGNORECASE`
at the current position (the `Present` alternative carries no `\b`). -/
def matchDateTest (prevWord : Bool) (l : List Char) : Option Nat :=
  match (if prevWord then none
    else match matchMonth true l with
      | some k => some k
      | none => match matchMMYYYY l with
        | some k => some k
        | none => matchYear4 l) with
  | some k => some k
  | none => if ciPrefixList "Present".toList l then some 7 else none

/-- The `re.findall` scan: at each position try the matcher; on a match of
length `k` emit the matched text and continue after it, otherwise advance one
character.  `fuel` starts at the input length and bounds the iteration. -/
def scanTokens (matcher : Bool → List Char → Option Nat) :
    Nat → Bool → List Char → List (List Char)
  | 0, _, _ => []
  | _ + 1, _, [] => []
  | fuel + 1, prevWord, c :: rest =>
    match matcher prevWord (c :: rest) with
    | some k =>
      let tok := (c :: rest).take k
      let nextPrev := match tok.reverse with
        | [] => prevWord
        | d :: _ => isWordChar d
      tok :: scanTokens matcher fuel nextPrev ((c :: rest).drop k)
    | none => scanTokens matcher fuel (isWordChar c) rest

/-- `re.findall(r'\b(?:Jan|...|Dec|\d{4})\b', text)` - the tokenizer of
cv_vetter.py line 79 and cv_vetter2.py line 199. -/
def findDateTokensV1 (text : String) : List String :=
  (scanTokens matchDateV1 text.toList.length false text.toList).map String.mk

/-- `re.findall` for test.py line 49's date pattern. -/
def findDateTokensTest (text : String) : List String :=
  (scanTokens matchDateTest text.toList.length false text.toList).map String.mk

/-! ## cv_vetter.py -/

namespace CvVetter

/-- The end token resolves through the resolver unless it is the literal
`present` after lower-casing, which resolves to the current date
(`parse_experience`, cv_vetter.py line 88). -/
def endResolve (resolve : String → Option Date) (now : Date) (b : String) :
    Option Date :=
  if pyLower b = "present" then some now else resolve b

/-- One pair's contribution in `parse_experience`: zero unless both sides
resolve, else the day difference over 365.25 clamped at zero
(`max(delta, 0)`). -/
def pairContribution (resolve : String → Option Date) (now : Date)
    (a b : String) : ℚ :=
  match resolve a, endResolve resolve now b with
  | some sd, some ed =>
    let delta : ℚ := (dayDiff ed sd : ℚ) / (1461 / 4)
    if delta < 0 then 0 else delta
  | _, _ => 0

/-- The loop of `parse_experience` (cv_vetter.py lines 83-92):
`for i in range(0, len(dates), 2)` pairs positionally; a trailing unpaired
token gets the literal end `'Present'`. -/
def expSum (resolve : String → Option Date) (now : Date) : List String → ℚ
  | [] => 0
  | [a] => pairContribution resolve now a "Present"
  | a :: b :: rest => pairContribution resolve now a b + expSum resolve now rest

/-- `parse_experience` of cv_vetter.py over an already-tokenized date list,
parameterized by the external date resolver. -/
def parse_experience (resolve : String → Option Date) (now : Date)
    (dates : List String) : ℚ :=
  pyRound1 (expSum resolve now dates)

end CvVetter

/-! ## cv_vetter2.py -/

namespace CvVetter2

/-- One pair's contribution in `calculate_experience` (cv_vetter2.py lines
100-107): zero unless both sides resolve; a start strictly after the current
date is skipped (`continue`); otherwise the day difference over 365.25
clamped at zero. -/
def pairContribution (resolve : String → Option Date) (now : Date)
    (a b : String) : ℚ :=
  match resolve a, CvVetter.endResolve resolve now b with
  | some sd, some ed =>
    if toOrdinal now < toOrdinal sd then 0
    else
      let delta : ℚ := (dayDiff ed sd : ℚ) / (1461 / 4)
      if delta < 0 then 0 else delta
  | _, _ => 0

/-- The loop of `calculate_experience`: `for i in range(0, len(dates)-1, 2)`,
so a trailing unpaired token is never visited (its `else 'Present'` default
on line 98 is unreachable). -/
def expSum (resolve : String → Option Date) (now : Date) : List String → ℚ
  | [] => 0
  | [_] => 0
  | a :: b :: rest => pairContribution resolve now a b + expSum resolve now rest

/-- `calculate_experience` of cv_vetter2.py over an already-tokenized date
list, parameterized by the external date resolver. -/
def calculate_experience (resolve : String → Option Date) (now : Date)
    (dates : List String) : ℚ :=
  pyRound1 (expSum resolve now dates)

/-- The keyword→weight table of `score_projects` (cv_vetter2.py lines
131-140). -/
def keywordWeights : List (String × Nat) :=
  [("basic", 1), ("intermediate", 2), ("advanced", 3), ("scalable", 3),
   ("microservices", 3), ("ci/cd", 2), ("optimized", 2), ("containerized", 3)]

/-- `score_projects` of cv_vetter2.py: the sum of the weights of every
keyword contained (as a substring) in the lower-cased input text - the whole
resume text, each keyword counted at most once overall. -/
def score_projects (text : String) : Nat :=
  ((keywordWeights.filter (fun kv => pyContains kv.1 (pyLower text))).map
    (fun kv => kv.2)).sum

/-- `determine_proficiency` (cv_vetter2.py lines 143-152): four experience
bands, each split by a project-score threshold. -/
def determine_proficiency (experience : ℚ) (project_score : Int) :
    String × Int :=
  if experience ≤ 1 then
    if project_score < 2 then ("Entry Level", 1) else ("Junior", 2)
  else if experience ≤ 3 then
    if project_score < 4 then ("Mid-Level", 3) else ("Professional", 4)
  else if experience ≤ 5 then
    if project_score < 6 then ("Senior", 5) else ("Expert", 6)
  else
    if project_score < 8 then ("Principal", 7) else ("Architect", 8)

/-- The categorized skill vocabulary of `extract_skills` (cv_vetter2.py lines
113-117), in the dict's insertion order. -/
def skillsDb : List (String × List String) :=
  [("Languages", ["python", "java", "javascript", "c++", "sql"]),
   ("Frameworks", ["react", "node.js", "django", "flask", "spring"]),
   ("Tools", ["docker", "git", "aws", "jenkins", "kubernetes"])]

/-- `extract_skills` of cv_vetter2.py over the token list of the lower-cased
text (the spaCy tokenizer is the external collaborator producing the tokens):
per category, each matching token's capitalized form is added once (set
semantics, modelled as first-insertion order); categories with no match are
dropped by the final comprehension `{k: list(v) ... if v}`. -/
def extract_skills (tokens : List String) : List (String × List String) :=
  (skillsDb.map (fun cat =>
    (cat.1, tokens.foldl (fun acc t =>
      if cat.2.contains t && !acc.contains (pyCapitalize t) then
        acc ++ [pyCapitalize t]
      else acc) []))).filter (fun cat => !cat.2.isEmpty)

/-- The readiness record built by `full_analysis_pipeline`
(cv_vetter2.py lines 220-228). -/
structure Readiness where
  ready : Bool
  score : Int
  factors : List String
deriving DecidableEq, Repr

/-- The interview-readiness verdict of `full_analysis_pipeline`, as a
function of the computed experience, project score and LinkedIn-validity
flag: `ready = level >= 3 and project_score >= 4`,
`score = level + (1 if project_score >= 4 else 0)`, and the three factor
strings in the source's order. -/
def pipeline_readiness (experience : ℚ) (project_score : Int)
    (linkedin_valid : Bool) : Readiness :=
  let prof := determine_proficiency experience project_score
  { ready := decide (3 ≤ prof.2) && decide (4 ≤ project_score)
    score := prof.2 + (if 4 ≤ project_score then 1 else 0)
    factors :=
      ["Proficiency Level: " ++ toString prof.2,
       "Project Score: " ++ toString project_score,
       "LinkedIn Valid: " ++ (if linkedin_valid then "True" else "False")] }

end CvVetter2

/-! ## test.py -/

namespace Test

/-- One pair's contribution in `parse_experience` (test.py lines 57-62):
kept only if both sides resolve and `start_date <= end_date`; the
contribution is `delta.years + delta.months / 12` of the relativedelta. -/
def pairContribution (resolve : String → Option Date) (now : Date)
    (a b : String) : ℚ :=
  match resolve a, CvVetter.endResolve resolve now b with
  | some sd, some ed =>
    if toOrdinal sd ≤ toOrdinal ed then
      ((relativedeltaYM ed sd).1 : ℚ) + ((relativedeltaYM ed sd).2 : ℚ) / 12
    else 0
  | _, _ => 0

/-- The loop of test.py's `parse_experience`: `for i in range(0,
len(date_ranges), 2)`, a trailing unpaired token getting the literal end
`'Present'`. -/
def expSum (resolve : String → Option Date) (now : Date) : List String → ℚ
  | [] => 0
  | [a] => pairContribution resolve now a "Present"
  | a :: b :: rest => pairContribution resolve now a b + expSum resolve now rest

/-- `parse_experience` of test.py over an already-tokenized date list,
parameterized by the external date resolver. -/
def parse_experience (resolve : String → Option Date) (now : Date)
    (dates : List String) : ℚ :=
  pyRound1 (expSum resolve now dates)

/-- The complexity keyword list of `score_projects` (test.py lines 88-91);
every keyword counts 1. -/
def complexityKeywords : List String :=
  ["scalable", "microservices", "ci/cd", "optimized", "containerized",
   "authentication", "api", "cloud", "database", "latency"]

/-- One project segment's contribution in test.py's `score_projects`: the
number of complexity keywords contained in the lower-cased segment (each
keyword adds 1 however often it occurs). -/
def projectContribution (project : String) : Nat :=
  (complexityKeywords.filter (fun k => pyContains k (pyLower project))).length

/-- `score_projects` of test.py: sum of the per-segment keyword counts. -/
def score_projects (projects : List String) : Nat :=
  (projects.map projectContribution).sum

/-- The reference corpus of `check_plagiarism` (test.py lines 101-105). -/
def knownProjects : List String :=
  ["Built a REST API with Django", "Developed a chatbot using NLP",
   "Architected scalable microservices"]

/-- `max` of a nonempty list of rationals (Python's `max([...])`; the list
is the three reference ratios, never empty where the source calls it). -/
def maxList : List ℚ → ℚ
  | [] => 0
  | h :: t => t.foldl max h

/-- `check_plagiarism` of test.py, parameterized by the external
`SequenceMatcher(None, a, b).ratio()` similarity metric: per segment the
maximal ratio against the reference corpus, averaged over the segments and
scaled by 100; the guard `if projects else 0` makes the empty list yield 0
with no division. -/
def check_plagiarism (ratio : String → String → ℚ) (projects : List String) :
    ℚ :=
  let total := (projects.map (fun p =>
    maxList (knownProjects.map (fun kp => ratio p kp)))).sum
  if projects.isEmpty then 0 else total / (projects.length : ℚ) * 100

/-- The first guard of `categorize_candidate` (test.py line 117). -/
def ccGuard1 (e : ℚ) (ps : Int) : Prop := e ≤ 1 ∧ ps ≤ 2

/-- The second guard of `categorize_candidate` (test.py line 119). -/
def ccGuard2 (e : ℚ) (ps : Int) : Prop := 1 < e ∧ e ≤ 3 ∧ 2 < ps ∧ ps ≤ 4

/-- The third guard of `categorize_candidate` (test.py line 121). -/
def ccGuard3 (e : ℚ) (ps : Int) : Prop := 3 < e ∧ e ≤ 5 ∧ 4 < ps

/-- The fourth guard of `categorize_candidate` (test.py line 123). -/
def ccGuard4 (e : ℚ) (ps : Int) : Prop := 5 < e ∧ 5 < ps

instance (e : ℚ) (ps : Int) : Decidable (ccGuard1 e ps) := by
  unfold ccGuard1; infer_instance

instance (e : ℚ) (ps : Int) : Decidable (ccGuard2 e ps) := by
  unfold ccGuard2; infer_instance

instance (e : ℚ) (ps : Int) : Decidable (ccGuard3 e ps) := by
  unfold ccGuard3; infer_instance

instance (e : ℚ) (ps : Int) : Decidable (ccGuard4 e ps) := by
  unfold ccGuard4; infer_instance

/-- `categorize_candidate` (test.py lines 115-126): four band rules and a
fallback `return 2, 'Intermediate'`. -/
def categorize_candidate (experience : ℚ) (project_score : Int) :
    Int × String :=
  if ccGuard1 experience project_score then (1, "Beginner")
  else if ccGuard2 experience project_score then (3, "Intermediate")
  else if ccGuard3 experience project_score then (4, "Professional")
  else if ccGuard4 experience project_score then (6, "Expert")
  else (2, "Intermediate")

/-- The skill vocabulary of test.py's `parse_skills` (lines 71-75). -/
def skillsDb : List (String × List String) :=
  [("Languages", ["python", "java", "javascript", "typescript", "c++", "sql"]),
   ("Frameworks", ["react", "node.js", "django", "flask", "next.js", "graphql"]),
   ("Tools", ["docker", "kubernetes", "aws", "jenkins", "git", "rabbitmq"])]

/-- `parse_skills` of test.py over the text's token list (spaCy is the
external tokenizer; here the raw text is tokenized, not a lower-cased copy):
each token is lower-cased and, on a vocabulary hit, added once in its
lower-cased (not canonical) form; the final comprehension returns every
category, the empty ones included. -/
def parse_skills (tokens : List String) : List (String × List String) :=
  skillsDb.map (fun cat =>
    (cat.1, tokens.foldl (fun acc t =>
      if cat.2.contains (pyLower t) && !acc.contains (pyLower t) then
        acc ++ [pyLower t]
      else acc) []))

/-- The name heuristic of test.py's `extract_name` (lines 34-40): the first
of the first 10 lines whose stripped form is upper-case (`str.isupper`: at
least one cased character, none lower-case) and at most 3 words, returned
as-is; sentinel `"Name not found"`. -/
def extract_name (text : String) : String :=
  match ((splitNl text.toList).take 10).find? (fun l =>
      let s := pyStripList l
      (s.any isAlphaAZ && !s.any isLowerAZ) && pySplitCount l ≤ 3) with
  | some l => String.mk (pyStripList l)
  | none => "Name not found"

end Test

/-! ## Name extraction (cv_vetter2.py lines 52-66)

The three `name_patterns` regexes, each matched with `re.match` against a
stripped line.  For all three the whole line is the match (`$`, respectively
the greedy `(.+)$`), so `name_match.group()` is always the full stripped
line. -/

/-- Recognizer of `^([A-Z][a-z]+(?:\s[A-Z][a-z]+)*)$`.  The mode encodes the
parser state: 0 expects an upper-case word start, 1 expects the word's first
lower-case letter, 2 is inside the lower-case run (may end, continue, or see
one `\s` before the next word). -/
def titleRun : List Char → Nat → Bool
  | [], m => m == 2
  | c :: rest, 0 => isUpperAZ c && titleRun rest 1
  | c :: rest, 1 => isLowerAZ c && titleRun rest 2
  | c :: rest, 2 =>
    (isLowerAZ c && titleRun rest 2) || (isPySpace c && titleRun rest 0)
  | _ :: _, _ => false

/-- The title-case pattern, cv_vetter2.py line 54. -/
def titleCaseB (l : List Char) : Bool := titleRun l 0

/-- The all-caps pattern `^[A-Z\s]{5,}$`, cv_vetter2.py line 55. -/
def allCapsB (l : List Char) : Bool :=
  decide (5 ≤ l.length) && l.all (fun c => isUpperAZ c || isPySpace c)

/-- Drop a case-insensitive prefix, if present. -/
def stripPrefixCI : List Char → List Char → Option (List Char)
  | [], l => some l
  | _ :: _, [] => none
  | a :: as, b :: bs =>
    if toLowerC a == toLowerC b then stripPrefixCI as bs else none

/-- The label pattern `(?i)\b(name|about)\b[\s:]*(.+)$` under `re.match`:
the line starts (case-insensitively) with `name` or `about`, the next
character exists and is not a word character (the closing `\b`, and at least
one character for `(.+)`); the match then spans the whole line. -/
def labelMatchB (l : List Char) : Bool :=
  (match stripPrefixCI "name".toList l with
   | some (c :: _) => !isWordChar c
   | _ => false) ||
  (match stripPrefixCI "about".toList l with
   | some (c :: _) => !isWordChar c
   | _ => false)

namespace CvVetter2

/-- A stripped line yields a name in `extract_personal_details`: some pattern
matches it (the patterns are tried in the source's order title-case,
all-caps, label) and the whole match splits into at most 4 words. -/
def lineGivesName (l : List Char) : Bool :=
  (titleCaseB l || allCapsB l || labelMatchB l) && decide (pySplitCount l ≤ 4)

/-- The name-extraction loop of `extract_personal_details` (cv_vetter2.py
lines 59-66): scan the first 20 lines, strip each, return the title-cased
first line some pattern accepts, else the sentinel `'Not Found'`. -/
def extract_name (text : String) : String :=
  match (((splitNl text.toList).take 20).map pyStripList).find? lineGivesName with
  | some l => String.mk (pyTitleList l)
  | none => "Not Found"

end CvVetter2

/-- Modelled from claim C7's words, for comparison with
`CvVetter2.extract_name`: the patterns in the claim's priority order - a
fully upper-case line of at most 4 words first, then a title-case line, then
a label line - with the word bound attached only to the upper-case pattern,
as the claim states it. -/
def c7ClaimLine (l : List Char) : Bool :=
  (allCapsB l && decide (pySplitCount l ≤ 4)) || titleCaseB l || labelMatchB l

/-- The name extractor claim C7 describes (first 20 lines, first matching
line wins, title-cased, sentinel otherwise), with `c7ClaimLine` as the
per-line test. -/
def c7ClaimExtractName (text : String) : String :=
  match (((splitNl text.toList).take 20).map pyStripList).find? c7ClaimLine with
  | some l => String.mk (pyTitleList l)
  | none => "Not Found"

/-- Claim C7 amended: every pattern's candidate - not only the upper-case
one - is subject to the 4-word bound. -/
def c7AmendLine (l : List Char) : Bool :=
  (allCapsB l && decide (pySplitCount l ≤ 4)) ||
  (titleCaseB l && decide (pySplitCount l ≤ 4)) ||
  (labelMatchB l && decide (pySplitCount l ≤ 4))

/-- The amended claim-C7 name extractor. -/
def c7AmendExtractName (text : String) : String :=
  match (((splitNl text.toList).take 20).map pyStripList).find? c7AmendLine with
  | some l => String.mk (pyTitleList l)
  | none => "Not Found"

/-! ## The decision table's bands (cv_vetter2.py lines 145-152) -/

/-- The band index of an experience value in `determine_proficiency`'s
ordered decision table. -/
def bandIdx (e : ℚ) : Int :=
  if e ≤ 1 then 0 else if e ≤ 3 then 1 else if e ≤ 5 then 2 else 3

/-- The project-score threshold `determine_proficiency` applies within the
band of the given experience (2, 4, 6 and 8 for the four bands). -/
def bandThreshold (e : ℚ) : Int := 2 * bandIdx e + 2

/-- Modelled from claim C5's words, for comparison with
`CvVetter2.pipeline_readiness`: ready iff the level is at least 3 and the
project score meets the same threshold the proficiency table used. -/
def c5ClaimReady (e : ℚ) (ps : Int) : Prop :=
  3 ≤ (CvVetter2.determine_proficiency e ps).2 ∧ bandThreshold e ≤ ps

instance (e : ℚ) (ps : Int) : Decidable (c5ClaimReady e ps) := by
  unfold c5ClaimReady; infer_instance

/-- Modelled from claim C5's words: the readiness score as level plus one
exactly when the project score meets the table's band threshold. -/
def c5ClaimScore (e : ℚ) (ps : Int) : Int :=
  (CvVetter2.determine_proficiency e ps).2 + (if bandThreshold e ≤ ps then 1 else 0)

/-! ## Shared constants and helper lemmas -/

/-- The fixed current date of the worked examples: 2024-01-15, the spec's
"current date fixed at 2024-01-15". -/
def dNow : Date := ⟨2024, 1, 15⟩

/-- `List.find?` only looks at the values of the predicate. -/
theorem find?_of_eq {α : Type} {p q : α → Bool} (h : ∀ a, p a = q a) :
    ∀ l : List α, l.find? p = l.find? q
  | [] => rfl
  | x :: xs => by
    rw [List.find?, List.find?, h x, find?_of_eq h xs]

/-- The code's per-line test and the amended claim's per-line test agree:
the word bound distributes over the (order-irrelevant) disjunction of the
three patterns. -/
theorem lineGivesName_eq_amend (l : List Char) :
    CvVetter2.lineGivesName l = c7AmendLine l := by
  unfold CvVetter2.lineGivesName c7AmendLine
  generalize titleCaseB l = t
  generalize allCapsB l = a
  generalize labelMatchB l = b
  generalize decide (pySplitCount l ≤ 4) = w
  cases t <;> cases a <;> cases b <;> cases w <;> rfl

/-- The level returned by `determine_proficiency` in closed form: twice the
band index plus 1 below the band's threshold, plus 2 at or above it. -/
theorem determine_proficiency_level_eq (e : ℚ) (ps : Int) :
    (CvVetter2.determine_proficiency e ps).2 =
      2 * bandIdx e + (if ps < bandThreshold e then 1 else 2) := by
  unfold CvVetter2.determine_proficiency bandThreshold bandIdx
  split_ifs <;> simp_all <;> omega

/-- The band index is monotone in the experience. -/
theorem bandIdx_mono {e1 e2 : ℚ} (h : e1 ≤ e2) : bandIdx e1 ≤ bandIdx e2 := by
  unfold bandIdx
  split_ifs <;> linarith

/-- The band index lies between 0 and 3. -/
theorem bandIdx_bounds (e : ℚ) : 0 ≤ bandIdx e ∧ bandIdx e ≤ 3 := by
  unfold bandIdx
  split_ifs <;> norm_num

/-- `pyRound1` at a value whose tenfold lies strictly below its floor plus a
half: rounding truncates to `n / 10`. -/
theorem pyRound1_eq_down (q : ℚ) (n : Int) (h1 : (n : ℚ) ≤ 10 * q)
    (h2 : 10 * q < n + 1) (h3 : 10 * q - n < 1 / 2) :
    pyRound1 q = (n : ℚ) / 10 := by
  have hf : ⌊10 * q⌋ = n := Int.floor_eq_iff.mpr ⟨h1, h2⟩
  unfold pyRound1 roundHalfEven ratFloor
  rw [hf, if_pos h3]

/-- `pyRound1` at a value whose tenfold lies strictly above its floor plus a
half: rounding goes up to `(n + 1) / 10`. -/
theorem pyRound1_eq_up (q : ℚ) (n : Int) (h1 : (n : ℚ) ≤ 10 * q)
    (h2 : 10 * q < n + 1) (h3 : 1 / 2 < 10 * q - n) :
    pyRound1 q = ((n + 1 : Int) : ℚ) / 10 := by
  have hf : ⌊10 * q⌋ = n := Int.floor_eq_iff.mpr ⟨h1, h2⟩
  unfold pyRound1 roundHalfEven ratFloor
  rw [hf, if_neg (by linarith), if_pos h3]

/-- `pyRound1 0 = 0`. -/
theorem pyRound1_zero : pyRound1 0 = 0 := by
  have h : pyRound1 0 = ((0 : Int) : ℚ) / 10 :=
    pyRound1_eq_down 0 0 (by norm_num) (by norm_num) (by norm_num)
  simpa using h

/-! ## Claim C1 -/

/-- C1 (code bug in cv_vetter2.py): for the odd-length token sequence
`["2019"]` at current date 2024-01-15, cv_vetter.py's and test.py's
calculators treat the final unpaired token as a (start, "Present") interval
ending at the current date, contributing 5.0 years exactly as the claim
states - but cv_vetter2.py's `calculate_experience` iterates
`range(0, len(dates)-1, 2)`, never visits the final token (its
`else 'Present'` default is dead code) and returns 0.0. -/
theorem c1_unpaired_token_dropped_eval :
    CvVetter2.calculate_experience (modelResolve dNow) dNow ["2019"] = 0 ∧
    CvVetter.parse_experience (modelResolve dNow) dNow ["2019"] = 5 ∧
    Test.parse_experience (modelResolve dNow) dNow ["2019"] = 5 ∧
    CvVetter.parse_experience (modelResolve dNow) dNow ["2019"] =
      CvVetter.parse_experience (modelResolve dNow) dNow ["2019", "Present"] := by
  have hs : modelResolve dNow "2019" = some ⟨2019, 1, 15⟩ := by decide
  have he : CvVetter.endResolve (modelResolve dNow) dNow "Present" = some dNow := by
    decide
  have hd : dayDiff dNow ⟨2019, 1, 15⟩ = 1826 := by decide
  have h5 : CvVetter.parse_experience (modelResolve dNow) dNow ["2019"] = 5 := by
    simp only [CvVetter.parse_experience, CvVetter.expSum, CvVetter.pairContribution,
      hs, he, hd]
    rw [if_neg (by norm_num)]
    rw [pyRound1_eq_up _ 49 (by norm_num) (by norm_num) (by norm_num)]
    norm_num
  refine ⟨?_, h5, ?_, ?_⟩
  · simp only [CvVetter2.calculate_experience, CvVetter2.expSum]
    exact pyRound1_zero
  · have hr : relativedeltaYM dNow ⟨2019, 1, 15⟩ = (5, 0) := by decide
    simp only [Test.parse_experience, Test.expSum, Test.pairContribution, hs, he, hr]
    rw [if_pos (by decide)]
    rw [show (((5 : Int), (0 : Int)).1 : ℚ) + (((5 : Int), (0 : Int)).2 : ℚ) / 12 = 5
      from by norm_num]
    rw [pyRound1_eq_down _ 50 (by norm_num) (by norm_num) (by norm_num)]
    norm_num
  · rw [h5]
    symm
    simp only [CvVetter.parse_experience, CvVetter.expSum, CvVetter.pairContribution,
      hs, he, hd]
    rw [if_neg (by norm_num)]
    rw [pyRound1_eq_up _ 49 (by norm_num) (by norm_num) (by norm_num)]
    norm_num

/-! ## Claim C9 -/

/-- C9 counterexample: on text whose only chronological content is
"Jan 2019 - Present", with the current date 2024-01-15, neither variant of
the pipeline computes anything near 5.0: both compute 0. -/
theorem c9_jan2019_counterexample :
    Test.parse_experience (modelResolve dNow) dNow
      (findDateTokensTest "Experience: Jan 2019 - Present") ≠ 5 ∧
    CvVetter.parse_experience (modelResolve dNow) dNow
      (findDateTokensV1 "Experience: Jan 2019 - Present") ≠ 5 := by
  have htok : findDateTokensTest "Experience: Jan 2019 - Present" =
      ["Jan", "2019", "Present"] := by decide
  have htok1 : findDateTokensV1 "Experience: Jan 2019 - Present" =
      ["Jan", "2019"] := by decide
  have hjan : modelResolve dNow "Jan" = some ⟨2024, 1, 15⟩ := by decide
  have h19 : CvVetter.endResolve (modelResolve dNow) dNow "2019" =
      some ⟨2019, 1, 15⟩ := by decide
  have hpr : modelResolve dNow "Present" = none := by decide
  constructor
  · rw [htok]
    simp only [Test.parse_experience, Test.expSum, Test.pairContribution,
      hjan, h19, hpr]
    rw [if_neg (by decide)]
    rw [show (0 : ℚ) + 0 = 0 from by norm_num, pyRound1_zero]
    norm_num
  · rw [htok1]
    have hd : dayDiff ⟨2019, 1, 15⟩ ⟨2024, 1, 15⟩ = -1826 := by decide
    simp only [CvVetter.parse_experience, CvVetter.expSum, CvVetter.pairContribution,
      hjan, h19, hd]
    rw [if_pos (by norm_num)]
    rw [show (0 : ℚ) + 0 = 0 from by norm_num, pyRound1_zero]
    norm_num

/-- C9 amended: the example computes 0.0, not 5.0.  The tokenizer splits
"Jan 2019" into the two tokens "Jan" and "2019", which form the first pair;
"Jan" resolves to January of the current year, so the pair is out of order
and contributes nothing, and (in test.py) the trailing "Present" token is
left as a start that fails to resolve. -/
theorem c9_jan2019_amended :
    findDateTokensTest "Experience: Jan 2019 - Present" =
      ["Jan", "2019", "Present"] ∧
    findDateTokensV1 "Experience: Jan 2019 - Present" = ["Jan", "2019"] ∧
    Test.parse_experience (modelResolve dNow) dNow
      (findDateTokensTest "Experience: Jan 2019 - Present") = 0 ∧
    CvVetter.parse_experience (modelResolve dNow) dNow
      (findDateTokensV1 "Experience: Jan 2019 - Present") = 0 := by
  have htok : findDateTokensTest "Experience: Jan 2019 - Present" =
      ["Jan", "2019", "Present"] := by decide
  have htok1 : findDateTokensV1 "Experience: Jan 2019 - Present" =
      ["Jan", "2019"] := by decide
  have hjan : modelResolve dNow "Jan" = some ⟨2024, 1, 15⟩ := by decide
  have h19 : CvVetter.endResolve (modelResolve dNow) dNow "2019" =
      some ⟨2019, 1, 15⟩ := by decide
  have hpr : modelResolve dNow "Present" = none := by decide
  refine ⟨htok, htok1, ?_, ?_⟩
  · rw [htok]
    simp only [Test.parse_experience, Test.expSum, Test.pairContribution,
      hjan, h19, hpr]
    rw [if_neg (by decide)]
    rw [show (0 : ℚ) + 0 = 0 from by norm_num, pyRound1_zero]
  · rw [htok1]
    have hd : dayDiff ⟨2019, 1, 15⟩ ⟨2024, 1, 15⟩ = -1826 := by decide
    simp only [CvVetter.parse_experience, CvVetter.expSum, CvVetter.pairContribution,
      hjan, h19, hd]
    rw [if_pos (by norm_num)]
    rw [show (0 : ℚ) + 0 = 0 from by norm_num, pyRound1_zero]

/-! ## Claim C2 -/

/-- C2 amended: the pair-discard rule holds of cv_vetter2.py's
`calculate_experience` alone - a pair contributes zero when either side
fails to resolve, when the resolved start is strictly after the current
date, or when the start is after the end, and only fully resolved,
non-future, in-order pairs add a positive duration.  (cv_vetter.py's and
test.py's `parse_experience` have no future-start discard: see the
counterexample.) -/
theorem c2_pair_discard_amended (resolve : String → Option Date) (now : Date)
    (a b : String) :
    (resolve a = none → CvVetter2.pairContribution resolve now a b = 0) ∧
    (CvVetter.endResolve resolve now b = none →
      CvVetter2.pairContribution resolve now a b = 0) ∧
    (∀ sd ed, resolve a = some sd → CvVetter.endResolve resolve now b = some ed →
      (toOrdinal now < toOrdinal sd → CvVetter2.pairContribution resolve now a b = 0) ∧
      (toOrdinal ed < toOrdinal sd → CvVetter2.pairContribution resolve now a b = 0) ∧
      (0 < CvVetter2.pairContribution resolve now a b →
        toOrdinal sd ≤ toOrdinal now ∧ toOrdinal sd < toOrdinal ed)) := by
  refine ⟨?_, ?_, ?_⟩
  · intro h
    simp [CvVetter2.pairContribution, h]
  · intro h
    unfold CvVetter2.pairContribution
    rw [h]
    cases resolve a <;> rfl
  · intro sd ed hs he
    unfold CvVetter2.pairContribution
    rw [hs, he]
    simp only
    refine ⟨fun hfut => if_pos hfut, ?_, ?_⟩
    · intro hlt
      by_cases hfut : toOrdinal now < toOrdinal sd
      · exact if_pos hfut
      · rw [if_neg hfut, if_pos]
        apply div_neg_of_neg_of_pos
        · have h0 : dayDiff ed sd < 0 := by unfold dayDiff; omega
          exact_mod_cast h0
        · norm_num
    · intro hpos
      by_cases hfut : toOrdinal now < toOrdinal sd
      · rw [if_pos hfut] at hpos
        exact absurd hpos (by norm_num)
      · rw [if_neg hfut] at hpos
        constructor
        · exact Nat.le_of_not_lt hfut
        · by_cases hneg : ((dayDiff ed sd : ℚ) / (1461 / 4)) < 0
          · rw [if_pos hneg] at hpos
            exact absurd hpos (by norm_num)
          · rw [if_neg hneg] at hpos
            have hdpos : (0 : ℚ) < (dayDiff ed sd : ℚ) / (1461 / 4) := hpos
            have : (0 : ℚ) < (dayDiff ed sd : ℚ) := by
              by_contra hle
              push_neg at hle
              have : (dayDiff ed sd : ℚ) / (1461 / 4) ≤ 0 :=
                div_nonpos_of_nonpos_of_nonneg hle (by norm_num)
              linarith
            have : (0 : Int) < dayDiff ed sd := by exact_mod_cast this
            unfold dayDiff at this
            omega

/-- C2 counterexample: a fully future-dated pair - start 2030, end 2031,
current date 2024-01-15 - is kept by cv_vetter.py's and test.py's
`parse_experience`, which add its full positive year of duration instead of
discarding it. -/
theorem c2_future_pair_counterexample :
    modelResolve dNow "2030" = some ⟨2030, 1, 15⟩ ∧
    toOrdinal dNow < toOrdinal ⟨2030, 1, 15⟩ ∧
    CvVetter.parse_experience (modelResolve dNow) dNow ["2030", "2031"] = 1 ∧
    Test.parse_experience (modelResolve dNow) dNow ["2030", "2031"] = 1 := by
  have hs : modelResolve dNow "2030" = some ⟨2030, 1, 15⟩ := by decide
  have he : CvVetter.endResolve (modelResolve dNow) dNow "2031" =
      some ⟨2031, 1, 15⟩ := by decide
  refine ⟨hs, by decide, ?_, ?_⟩
  · have hd : dayDiff ⟨2031, 1, 15⟩ ⟨2030, 1, 15⟩ = 365 := by decide
    simp only [CvVetter.parse_experience, CvVetter.expSum, CvVetter.pairContribution,
      hs, he, hd]
    norm_num
    rw [pyRound1_eq_up _ 9 (by norm_num) (by norm_num) (by norm_num)]
    norm_num
  · have hr : relativedeltaYM ⟨2031, 1, 15⟩ ⟨2030, 1, 15⟩ = (1, 0) := by decide
    simp only [Test.parse_experience, Test.expSum, Test.pairContribution, hs, he, hr]
    rw [if_pos (by decide)]
    norm_num
    rw [pyRound1_eq_down _ 10 (by norm_num) (by norm_num) (by norm_num)]
    norm_num

/-- C2 witness: the amended theorem applied at the concrete future pair
(2030, 2031) with the current date 2024-01-15; cv_vetter2.py's calculator
discards it. -/
theorem c2_pair_discard_witness :
    CvVetter2.pairContribution (modelResolve dNow) dNow "2030" "2031" = 0 :=
  ((c2_pair_discard_amended (modelResolve dNow) dNow "2030" "2031").2.2
    ⟨2030, 1, 15⟩ ⟨2031, 1, 15⟩ (by decide) (by decide)).1 (by decide)

/-! ## Claim C3 -/

/-- C3 counterexample: for three project segments each containing
"microservices" and no other complexity keyword, test.py's `score_projects`
totals 3 (every keyword adds 1, there are no weights) and cv_vetter2.py's
`score_projects` over the joined text also totals 3 (weight 3, but the
keyword counts once over the whole text) - neither yields 9. -/
theorem c3_three_microservices_counterexample :
    Test.score_projects
      ["deployed microservices", "more microservices", "microservices again"] = 3 ∧
    Test.score_projects
      ["deployed microservices", "more microservices", "microservices again"] ≠ 9 ∧
    CvVetter2.score_projects
      "- deployed microservices\n- more microservices\n- microservices again" = 3 ∧
    CvVetter2.score_projects
      "- deployed microservices\n- more microservices\n- microservices again" ≠ 9 := by
  refine ⟨by decide, by decide, by decide, by decide⟩

/-- C3 amended: test.py's scorer counts each keyword at most once per
segment (so a segment contributes at most the vocabulary size however often
a keyword repeats) and sums across segments (it is additive over
concatenation of segment lists), but with weight 1 for every keyword; the
three-microservices example totals 3, as does cv_vetter2.py's weighted
scorer, which scans the whole text and counts each keyword at most once
overall. -/
theorem c3_scoring_amended :
    (∀ xs ys : List String,
      Test.score_projects (xs ++ ys) = Test.score_projects xs + Test.score_projects ys) ∧
    (∀ p : String, Test.projectContribution p ≤ Test.complexityKeywords.length) ∧
    (∀ text : String, CvVetter2.score_projects text ≤ 19) ∧
    Test.score_projects
      ["deployed microservices", "more microservices", "microservices again"] = 3 ∧
    CvVetter2.score_projects
      "- deployed microservices\n- more microservices\n- microservices again" = 3 := by
  refine ⟨?_, ?_, ?_, by decide, by decide⟩
  · intro xs ys
    simp [Test.score_projects]
  · intro p
    exact List.length_filter_le _ _
  · intro text
    unfold CvVetter2.score_projects
    have h : ∀ l : List (String × Nat),
        l ⊆ CvVetter2.keywordWeights →
        ((l.filter (fun kv => pyContains kv.1 (pyLower text))).map
          (fun kv => kv.2)).sum ≤ (l.map (fun kv => kv.2)).sum := by
      intro l _
      induction l with
      | nil => simp
      | cons hd tl ih =>
        by_cases hc : pyContains hd.1 (pyLower text)
        all_goals simp_all [List.filter_cons]
        all_goals omega
    calc ((CvVetter2.keywordWeights.filter
            (fun kv => pyContains kv.1 (pyLower text))).map (fun kv => kv.2)).sum
        ≤ (CvVetter2.keywordWeights.map (fun kv => kv.2)).sum :=
          h CvVetter2.keywordWeights (fun x hx => hx)
      _ = 19 := by decide

/-! ## Claim C8 -/

/-- C8: on an empty project-segment list, test.py's complexity scorer
returns 0 and its plagiarism scorer returns 0 for every similarity metric
the external `SequenceMatcher` collaborator could provide - the
`if projects else 0` guard keeps the division-by-count branch unreachable. -/
theorem c8_empty_projects_zero :
    (∀ ratio : String → String → ℚ, Test.check_plagiarism ratio [] = 0) ∧
    Test.score_projects [] = 0 := by
  exact ⟨fun ratio => rfl, rfl⟩

/-! ## Claim C4 -/

/-- C4 counterexample: test.py's `categorize_candidate` is cited by the
claim as well, and at (experience 0, projectScore 5) - a pair with both
coordinates non-negative - none of its four band rules applies and the
fallback `(2, 'Intermediate')` is reached, contradicting "no input reaches
an unmatched case or a fallback default". -/
theorem c4_fallback_reached_counterexample :
    ¬ Test.ccGuard1 0 5 ∧ ¬ Test.ccGuard2 0 5 ∧ ¬ Test.ccGuard3 0 5 ∧
    ¬ Test.ccGuard4 0 5 ∧
    Test.categorize_candidate 0 5 = (2, "Intermediate") := by
  refine ⟨by decide, by decide, by decide, by decide, by decide⟩

/-- C4 amended: cv_vetter2.py's `determine_proficiency` is total with no
reachable fallback - every input falls in one of the four experience bands
and the level is `2 * band + 1` below the band's threshold and `2 * band + 2`
at or above it, hence always between 1 and 8; test.py's
`categorize_candidate`, by contrast, is total only through its reachable
fallback branch. -/
theorem c4_determine_proficiency_total (e : ℚ) (ps : Int) :
    1 ≤ (CvVetter2.determine_proficiency e ps).2 ∧
    (CvVetter2.determine_proficiency e ps).2 ≤ 8 ∧
    (CvVetter2.determine_proficiency e ps).2 =
      2 * bandIdx e + (if ps < bandThreshold e then 1 else 2) := by
  have h := determine_proficiency_level_eq e ps
  have hb := bandIdx_bounds e
  refine ⟨?_, ?_, h⟩ <;> (rw [h]; split <;> omega)

/-! ## Claim C10 -/

/-- C10: `determine_proficiency` is monotone non-decreasing in each
argument - more experience at the same project score never lowers the level
number, and a higher project score at the same experience never lowers it. -/
theorem c10_determine_proficiency_monotone :
    (∀ (p : Int) (e1 e2 : ℚ), e1 ≤ e2 →
      (CvVetter2.determine_proficiency e1 p).2 ≤
        (CvVetter2.determine_proficiency e2 p).2) ∧
    (∀ (e : ℚ) (p1 p2 : Int), p1 ≤ p2 →
      (CvVetter2.determine_proficiency e p1).2 ≤
        (CvVetter2.determine_proficiency e p2).2) := by
  constructor
  · intro p e1 e2 h
    rw [determine_proficiency_level_eq, determine_proficiency_level_eq]
    have hb := bandIdx_mono h
    unfold bandThreshold
    rcases eq_or_lt_of_le hb with heq | hlt
    · rw [heq]
    · split <;> split <;> omega
  · intro e p1 p2 h
    rw [determine_proficiency_level_eq, determine_proficiency_level_eq]
    split <;> split <;> omega

/-- C10 witness: monotonicity applied at concrete points - one year versus
two years at project score 0, and project score 0 versus 5 at one year. -/
theorem c10_monotone_witness :
    (CvVetter2.determine_proficiency 1 0).2 ≤
      (CvVetter2.determine_proficiency 2 0).2 ∧
    (CvVetter2.determine_proficiency 1 0).2 ≤
      (CvVetter2.determine_proficiency 1 5).2 :=
  ⟨c10_determine_proficiency_monotone.1 0 1 2 (by norm_num),
   c10_determine_proficiency_monotone.2 1 0 5 (by norm_num)⟩

/-! ## Claim C5 -/

/-- C5 counterexample: at experience 4 and project score 4 the proficiency
table used threshold 6 (band 3-5 years) and 4 does not meet it, so the
claim's rule - the readiness check uses "the same project-score threshold
that the proficiency table used" - predicts not-ready with score 5; the
pipeline's fixed `>= 4` check instead reports ready with score 6. -/
theorem c5_threshold_mismatch_counterexample :
    (CvVetter2.pipeline_readiness 4 4 true).ready = true ∧
    ¬ c5ClaimReady 4 4 ∧
    (CvVetter2.pipeline_readiness 4 4 true).score = 6 ∧
    c5ClaimScore 4 4 = 5 := by
  refine ⟨by decide, by decide, by decide, by decide⟩

/-- C5 amended: readiness uses the fixed project-score threshold 4,
independent of the band threshold the proficiency table applied (the two
coincide exactly in the 1-3-years band): ready iff the level is at least 3
and the project score is at least 4, the score is the level plus one exactly
when the project score is at least 4, and the factors list names the
proficiency level, the project score and the LinkedIn-validity flag in that
fixed order. -/
theorem c5_readiness_amended (e : ℚ) (ps : Int) (lv : Bool) :
    ((CvVetter2.pipeline_readiness e ps lv).ready = true ↔
      3 ≤ (CvVetter2.determine_proficiency e ps).2 ∧ 4 ≤ ps) ∧
    (CvVetter2.pipeline_readiness e ps lv).score =
      (CvVetter2.determine_proficiency e ps).2 + (if 4 ≤ ps then 1 else 0) ∧
    (CvVetter2.pipeline_readiness e ps lv).factors =
      ["Proficiency Level: " ++ toString (CvVetter2.determine_proficiency e ps).2,
       "Project Score: " ++ toString ps,
       "LinkedIn Valid: " ++ (if lv then "True" else "False")] ∧
    (bandThreshold e = 4 ↔ (¬ e ≤ 1 ∧ e ≤ 3)) := by
  refine ⟨?_, rfl, rfl, ?_⟩
  · simp [CvVetter2.pipeline_readiness]
  · unfold bandThreshold bandIdx
    split_ifs with h1 h2 h3
    · constructor
      · intro h; exact absurd h (by omega)
      · intro h; exact absurd h1 h.1
    · exact ⟨fun _ => ⟨h1, h2⟩, fun _ => by omega⟩
    · constructor
      · intro h; exact absurd h (by omega)
      · intro h; exact absurd h.2 h2
    · constructor
      · intro h; exact absurd h (by omega)
      · intro h; exact absurd h.2 h2

/-! ## Claim C6 -/

/-- C6 counterexample: test.py's `parse_skills` - one of the claim's two
cited matchers - on tokens "python", "Python", "REACT" returns the
lower-cased, non-canonical names and keeps the empty "Tools" category, so
the matcher does not return capitalized names and does include a category
with no match. -/
theorem c6_parse_skills_counterexample :
    Test.parse_skills ["python", "Python", "REACT"] =
      [("Languages", ["python"]), ("Frameworks", ["react"]), ("Tools", [])] ∧
    ("Tools", ([] : List String)) ∈ Test.parse_skills ["python", "Python", "REACT"] ∧
    ¬ ("Languages", ["Python"]) ∈ Test.parse_skills ["python", "Python", "REACT"] := by
  refine ⟨by decide, by decide, by decide⟩

/-- C6 amended: the claim holds of cv_vetter2.py's `extract_skills` - every
returned category is non-empty, and the example tokens yield the
deduplicated canonical-cased Languages → ["Python"], Frameworks → ["React"]
with no empty category; test.py's `parse_skills` instead returns lower-cased
names and keeps empty categories. -/
theorem c6_extract_skills_amended :
    (∀ toks : List String, ∀ p ∈ CvVetter2.extract_skills toks, p.2 ≠ []) ∧
    CvVetter2.extract_skills (["python", "Python", "REACT"].map pyLower) =
      [("Languages", ["Python"]), ("Frameworks", ["React"])] := by
  constructor
  · intro toks p hp
    have h := (List.mem_filter.mp hp).2
    intro hnil
    rw [hnil] at h
    simp at h
  · decide

/-- C6 witness: the non-emptiness guarantee applied at the concrete token
list of the example, at the "Languages" entry it returns. -/
theorem c6_extract_skills_witness :
    (("Languages", ["Python"]) : String × List String) ∈
      CvVetter2.extract_skills (["python", "Python", "REACT"].map pyLower) ∧
    (("Languages", ["Python"]) : String × List String).2 ≠ [] :=
  ⟨by decide,
   c6_extract_skills_amended.1 (["python", "Python", "REACT"].map pyLower)
     ("Languages", ["Python"]) (by decide)⟩

/-! ## Claim C7 -/

/-- C7 counterexample: the claim attaches the word bound only to the
upper-case pattern, so on the single title-case line
"Aaa Bbb Ccc Ddd Eee" (five words) the claimed extractor returns the line,
while cv_vetter2.py's `extract_personal_details` rejects every pattern's
candidate with more than 4 words and returns the sentinel. -/
theorem c7_word_limit_counterexample :
    CvVetter2.extract_name "Aaa Bbb Ccc Ddd Eee" = "Not Found" ∧
    c7ClaimExtractName "Aaa Bbb Ccc Ddd Eee" = "Aaa Bbb Ccc Ddd Eee" ∧
    CvVetter2.extract_name "Aaa Bbb Ccc Ddd Eee" ≠
      c7ClaimExtractName "Aaa Bbb Ccc Ddd Eee" := by
  refine ⟨by decide, by decide, by decide⟩

/-- C7 amended: with the 4-word bound applied to every pattern's candidate
(not only the upper-case one), the claimed extractor - first 20 lines,
stripped, upper-case pattern before title-case before label, first match
wins, title-cased result, sentinel otherwise - computes exactly
cv_vetter2.py's name extraction on every input; in particular the relative
order of the upper-case and title-case patterns is immaterial, as no line
matches both. -/
theorem c7_name_extraction_amended (text : String) :
    CvVetter2.extract_name text = c7AmendExtractName text := by
  unfold CvVetter2.extract_name c7AmendExtractName
  rw [find?_of_eq lineGivesName_eq_amend]
